import Mathlib

/-!
Verification of the 4planet payment webhook ingestion and donation
settlement pipeline (pkg/payments/cloudpayments.go, pkg/achievements,
core.sql schema).

The Go code is shallowly embedded as pure Lean functions over an explicit
database state.  Machine integers (int64, int) are modelled as Int;
byte slices as List Nat (each entry a byte value); the relational store
as lists of rows together with the uniqueness and foreign key constraints
declared in core.sql and in the gorm struct tags.  Go runtime panics
(nil pointer dereference, integer division by zero) are modelled as an
explicit outcome constructor.  External library calls with no algorithmic
content in this repository (JSON decoding, RFC3339 time parsing, UUID
parsing) are supplied as parameters of the environment; the HMAC-SHA256
signature primitive, which the spec names explicitly, is embedded in full.
-/

namespace Planet

/-! ## HMAC-SHA256 (crypto/hmac, crypto/sha256, encoding/hex)

Full embedding of SHA-256 and HMAC as used by verifySignature:
hex.EncodeToString(hmac.New(sha256.New, secret).Write(payload).Sum(nil)).
Words are Nat reduced mod 2^32 at each step. -/

def w32 (n : Nat) : Nat := n % 4294967296

def not32 (x : Nat) : Nat := x ^^^ 4294967295

def rotr32 (x k : Nat) : Nat := w32 ((x >>> k) ||| (x <<< (32 - k)))

def bigSigma0 (x : Nat) : Nat := rotr32 x 2 ^^^ rotr32 x 13 ^^^ rotr32 x 22

def bigSigma1 (x : Nat) : Nat := rotr32 x 6 ^^^ rotr32 x 11 ^^^ rotr32 x 25

def smallSigma0 (x : Nat) : Nat := rotr32 x 7 ^^^ rotr32 x 18 ^^^ (x >>> 3)

def smallSigma1 (x : Nat) : Nat := rotr32 x 17 ^^^ rotr32 x 19 ^^^ (x >>> 10)

def ch32 (x y z : Nat) : Nat := (x &&& y) ^^^ (not32 x &&& z)

def maj32 (x y z : Nat) : Nat := (x &&& y) ^^^ (x &&& z) ^^^ (y &&& z)

structure Hash8 where
  a : Nat
  b : Nat
  c : Nat
  d : Nat
  e : Nat
  f : Nat
  g : Nat
  h : Nat
deriving Repr, DecidableEq

/-- The eight initial hash words of SHA-256 (FIPS 180-4), in decimal. -/
def initH : Hash8 :=
  ⟨1779033703, 3144134277, 1013904242, 2773480762,
   1359893119, 2600822924, 528734635, 1541459225⟩

/-- The 64 SHA-256 round constants (FIPS 180-4), in decimal. -/
def K256 : List Nat :=
  [1116352408, 1899447441, 3049323471, 3921009573, 961987163, 1508970993,
   2453635748, 2870763221, 3624381080, 310598401, 607225278, 1426881987,
   1925078388, 2162078206, 2614888103, 3248222580, 3835390401, 4022224774,
   264347078, 604807628, 770255983, 1249150122, 1555081692, 1996064986,
   2554220882, 2821834349, 2952996808, 3210313671, 3336571891, 3584528711,
   113926993, 338241895, 666307205, 773529912, 1294757372, 1396182291,
   1695183700, 1986661051, 2177026350, 2456956037, 2730485921, 2820302411,
   3259730800, 3345764771, 3516065817, 3600352804, 4094571909, 275423344,
   430227734, 506948616, 659060556, 883997877, 958139571, 1322822218,
   1537002063, 1747873779, 1955562222, 2024104815, 2227730452, 2361852424,
   2428436474, 2756734187, 3204031479, 3329325298]

def bytesToWords : List Nat → List Nat
  | b0 :: b1 :: b2 :: b3 :: rest =>
      (((b0 * 256 + b1) * 256 + b2) * 256 + b3) :: bytesToWords rest
  | _ => []

def scheduleAux : Nat → Array Nat → Array Nat
  | 0, arr => arr
  | Nat.succ n, arr =>
      let m := arr.size
      let w := w32 (smallSigma1 (arr.getD (m - 2) 0) + arr.getD (m - 7) 0 +
                    smallSigma0 (arr.getD (m - 15) 0) + arr.getD (m - 16) 0)
      scheduleAux n (arr.push w)

def roundStep (st : Hash8) (kw : Nat) : Hash8 :=
  let t1 := w32 (st.h + bigSigma1 st.e + ch32 st.e st.f st.g + kw)
  let t2 := w32 (bigSigma0 st.a + maj32 st.a st.b st.c)
  ⟨w32 (t1 + t2), st.a, st.b, st.c, w32 (st.d + t1), st.e, st.f, st.g⟩

def compressBlock (st : Hash8) (block : List Nat) : Hash8 :=
  let ws := (scheduleAux 48 (bytesToWords block).toArray).toList
  let kws := List.zipWith (fun k w => w32 (k + w)) K256 ws
  let r := kws.foldl roundStep st
  ⟨w32 (st.a + r.a), w32 (st.b + r.b), w32 (st.c + r.c), w32 (st.d + r.d),
   w32 (st.e + r.e), w32 (st.f + r.f), w32 (st.g + r.g), w32 (st.h + r.h)⟩

def chunks64 (l : List Nat) : List (List Nat) :=
  if h : l = [] then []
  else (l.take 64) :: chunks64 (l.drop 64)
termination_by l.length
decreasing_by
  simp only [List.length_drop]
  exact Nat.sub_lt (List.length_pos.mpr h) (by norm_num)

def toBytesBE : Nat → Nat → List Nat
  | 0, _ => []
  | Nat.succ n, v => ((v >>> (8 * n)) % 256) :: toBytesBE n v

def padMessage (msg : List Nat) : List Nat :=
  let L := msg.length
  let zeros := (120 - ((L + 1) % 64)) % 64
  msg ++ [128] ++ List.replicate zeros 0 ++ toBytesBE 8 (8 * L)

def sha256 (msg : List Nat) : List Nat :=
  let fin := (chunks64 (padMessage msg)).foldl compressBlock initH
  toBytesBE 4 fin.a ++ toBytesBE 4 fin.b ++ toBytesBE 4 fin.c ++ toBytesBE 4 fin.d ++
  toBytesBE 4 fin.e ++ toBytesBE 4 fin.f ++ toBytesBE 4 fin.g ++ toBytesBE 4 fin.h

/-- Lowercase hex digit for a value below 16, as in encoding/hex. -/
def hexDigitChar (n : Nat) : Char :=
  if n < 10 then Char.ofNat (48 + n) else Char.ofNat (87 + n)

def byteToHexChars (b : Nat) : List Char :=
  [hexDigitChar (b / 16), hexDigitChar (b % 16)]

def bytesToHex (bs : List Nat) : List Char :=
  bs.foldr (fun b acc => byteToHexChars b ++ acc) []

def hexEncode (bs : List Nat) : String := String.mk (bytesToHex bs)

def strToBytes (s : String) : List Nat := s.toUTF8.toList.map (fun b => b.toNat)

def hmacSha256 (key : String) (msg : List Nat) : List Nat :=
  let k := strToBytes key
  let k1 := if 64 < k.length then sha256 k else k
  let k0 := k1 ++ List.replicate (64 - k1.length) 0
  let ipad := k0.map (fun b => b ^^^ 54)
  let opad := k0.map (fun b => b ^^^ 92)
  sha256 (opad ++ sha256 (ipad ++ msg))

def hmacSha256Hex (key : String) (msg : List Nat) : String := hexEncode (hmacSha256 key msg)

/-- verifySignature (cloudpayments.go 380-388): compares the provided
signature with the hex encoded HMAC-SHA256 of the raw payload under the
configured secret, by string equality. -/
def verifySignature (secret : String) (payload : List Nat) (signature : String) : Bool :=
  signature == hmacSha256Hex secret payload

/-! ## Data model (internal/models/models.go, core.sql)

Rows keep exactly the columns the webhook pipeline reads or writes;
profile columns never touched by it (email, avatar, ...) are omitted.
uuid values are modelled as Nat drawn from a freshness counter in the
state.  Timestamps are Int.  The jsonb meta column of payments is
modelled by the three entries the pipeline ever stores in it:
the project id recorded by the payment intent, the webhook_processed
flag, and the refund_reason.  Writing a fresh meta map replaces all
three, exactly as the Go code replaces the whole jsonb value. -/

/-- WebhookPayload (cloudpayments.go 70-81).  The Go Amount field is a
float64 of major units and the subscription-charge path computes
int64(Amount * 100); floating point is outside the embedding, so the
payload carries the resulting minor-unit integer directly (no claim
depends on the float conversion). -/
structure WebhookPayload where
  typ : String
  transactionId : String
  amountMinor : Int
  currency : String
  status : String
  accountId : String
  occurredAt : String
  subscriptionId : Option String
  reason : Option String
deriving Repr, DecidableEq

structure User where
  authUserId : String
  totalTrees : Int
  donationsCount : Int
  lastDonationAt : Option Int
deriving Repr, DecidableEq

structure Payment where
  id : Nat
  providerPaymentId : Option String
  authUserId : Option String
  subscriptionId : Option Nat
  amountMinor : Int
  currency : String
  status : String
  occurredAt : Option Int
  metaProjectId : Option String
  metaWebhookProcessed : Bool
  metaRefundReason : Option (Option String)
deriving Repr, DecidableEq

structure Subscription where
  id : Nat
  authUserId : String
  providerSubscriptionId : Option String
  amountMinor : Int
  currency : String
  status : String
deriving Repr, DecidableEq

structure TreePrice where
  currency : String
  priceMinor : Int
deriving Repr, DecidableEq

structure Donation where
  id : Nat
  authUserId : String
  paymentId : Nat
  projectId : Option Nat
  treesCount : Int
deriving Repr, DecidableEq

structure WebhookEvent where
  id : Nat
  eventType : String
  eventIdempotency : Option String
  signatureOk : Bool
  processedOk : Bool
  processingError : Option String
deriving Repr, DecidableEq

structure Achievement where
  id : Nat
  code : String
  thresholdTrees : Option Int
deriving Repr, DecidableEq

structure UserAchievement where
  authUserId : String
  achievementId : Nat
  reason : Option String
deriving Repr, DecidableEq

/-- The relational store.  nextId models the supply of fresh uuid values. -/
structure DbState where
  users : List User
  payments : List Payment
  subscriptions : List Subscription
  treePrices : List TreePrice
  donations : List Donation
  webhookEvents : List WebhookEvent
  achievements : List Achievement
  userAchievements : List UserAchievement
  nextId : Nat
deriving Repr, DecidableEq

/-- Ambient externals of the pipeline: the configured webhook secret, the
wall clock (time.Now), RFC3339 parsing (time.Parse, whose error the code
discards, defaulting to the zero time), uuid string parsing, and JSON
decoding of the raw body into a WebhookPayload (encoding/json). -/
structure Env where
  secret : String
  now : Int
  parseTime : String → Option Int
  parseUUID : String → Option Nat
  decodeJson : List Nat → Option WebhookPayload

/-- Kind of Go runtime panic the pipeline can raise. -/
inductive GoPanic where
  | nilDeref
  | divByZero
deriving Repr, DecidableEq

/-- Result of one storage-level operation: nil error, non-nil error with
the wrapped message, or a runtime panic unwinding out of the call. -/
inductive Outcome where
  | ok
  | fail (msg : String)
  | crash (p : GoPanic)
deriving Repr, DecidableEq

/-! ## Settlement engine (pkg/payments/cloudpayments.go 228-378) -/

def PaymentStatusSucceeded : String := "succeeded"

def PaymentStatusRefunded : String := "refunded"

/-- createDonation (cloudpayments.go 327-378).  Looks up the tree price for
the payment currency, computes treesCount = payment.AmountMinor /
treePrice.PriceMinor with Go int64 division (truncation toward zero;
a zero divisor is a runtime panic, modelled as crash divByZero), extracts
an optional project id from the payment meta, then in one transaction
inserts the Donation (dereferencing payment.AuthUserID with no nil check:
a nil owner is a runtime panic, crash nilDeref) and increments the owner
counters with an expression-based update.  The insert respects the unique
index on donations.payment_id and the foreign key donations.auth_user_id
REFERENCES users (core.sql 178-185); a constraint violation fails the
whole transaction, leaving the state unchanged. -/
def createDonation (env : Env) (payment : Payment) (s : DbState) : DbState × Outcome :=
  match s.treePrices.find? (fun tp => tp.currency == payment.currency) with
  | none => (s, Outcome.fail ("tree price not found for currency " ++ payment.currency))
  | some treePrice =>
    if treePrice.priceMinor = 0 then
      (s, Outcome.crash GoPanic.divByZero)
    else
      let treesCount := Int.tdiv payment.amountMinor treePrice.priceMinor
      let projectId : Option Nat :=
        match payment.metaProjectId with
        | some str => env.parseUUID str
        | none => none
      match payment.authUserId with
      | none => (s, Outcome.crash GoPanic.nilDeref)
      | some uid =>
        if s.donations.any (fun d => d.paymentId == payment.id) ||
           !(s.users.any (fun u => u.authUserId == uid)) then
          (s, Outcome.fail ("failed to create donation"))
        else
          let donation : Donation :=
            { id := s.nextId, authUserId := uid, paymentId := payment.id,
              projectId := projectId, treesCount := treesCount }
          let users1 := s.users.map (fun u =>
            if u.authUserId == uid then
              { u with totalTrees := u.totalTrees + treesCount,
                       donationsCount := u.donationsCount + 1,
                       lastDonationAt := some env.now }
            else u)
          ({ s with donations := s.donations ++ [donation], users := users1,
                    nextId := s.nextId + 1 }, Outcome.ok)

/-- processPaymentEvent (cloudpayments.go 242-267).  Only Succeeded status
is acted on; the Payment is found by external transaction id, its status
and meta are updated by a committed write that is NOT inside the
createDonation transaction, and then createDonation runs on the updated
in-memory struct. -/
def processPaymentEvent (env : Env) (payload : WebhookPayload) (s : DbState) : DbState × Outcome :=
  if payload.status ≠ "Succeeded" then (s, Outcome.ok)
  else
    match s.payments.find? (fun p => p.providerPaymentId == some payload.transactionId) with
    | none => (s, Outcome.fail ("payment not found"))
    | some payment =>
      let occurredAt := (env.parseTime payload.occurredAt).getD 0
      let payment1 := { payment with
        status := PaymentStatusSucceeded, occurredAt := some occurredAt,
        metaProjectId := none, metaWebhookProcessed := true, metaRefundReason := none }
      let s1 := { s with payments := s.payments.map (fun p => if p.id == payment.id then payment1 else p) }
      createDonation env payment1 s1

/-- processSubscriptionChargeEvent (cloudpayments.go 270-306).  Only
Succeeded status is acted on; the Subscription is found by external
subscription id (a nil id matches nothing), a new succeeded Payment is
inserted (unique index on payments.provider_payment_id), then
createDonation runs on it. -/
def processSubscriptionChargeEvent (env : Env) (payload : WebhookPayload) (s : DbState) : DbState × Outcome :=
  if payload.status ≠ "Succeeded" then (s, Outcome.ok)
  else
    match payload.subscriptionId with
    | none => (s, Outcome.fail ("subscription not found"))
    | some sid =>
      match s.subscriptions.find? (fun sub => sub.providerSubscriptionId == some sid) with
      | none => (s, Outcome.fail ("subscription not found"))
      | some sub =>
        let occurredAt := (env.parseTime payload.occurredAt).getD 0
        let payment : Payment :=
          { id := s.nextId, providerPaymentId := some payload.transactionId,
            authUserId := some sub.authUserId, subscriptionId := some sub.id,
            amountMinor := payload.amountMinor, currency := sub.currency,
            status := PaymentStatusSucceeded, occurredAt := some occurredAt,
            metaProjectId := none, metaWebhookProcessed := true, metaRefundReason := none }
        if s.payments.any (fun p => p.providerPaymentId == some payload.transactionId) then
          (s, Outcome.fail ("failed to create payment"))
        else
          let s1 := { s with payments := s.payments ++ [payment], nextId := s.nextId + 1 }
          createDonation env payment s1

/-- processRefundEvent (cloudpayments.go 308-325).  Acted on regardless of
the status field; updates the found Payment to refunded with refund
bookkeeping in meta.  Donations and user counters are not touched. -/
def processRefundEvent (env : Env) (payload : WebhookPayload) (s : DbState) : DbState × Outcome :=
  match s.payments.find? (fun p => p.providerPaymentId == some payload.transactionId) with
  | none => (s, Outcome.fail ("payment not found"))
  | some payment =>
    let occurredAt := (env.parseTime payload.occurredAt).getD 0
    let payment1 := { payment with
      status := PaymentStatusRefunded, occurredAt := some occurredAt,
      metaProjectId := none, metaWebhookProcessed := true,
      metaRefundReason := some payload.reason }
    ({ s with payments := s.payments.map (fun p => if p.id == payment.id then payment1 else p) },
     Outcome.ok)

/-- processWebhookEvent (cloudpayments.go 228-239): dispatch on the payload
Type string. -/
def processWebhookEvent (env : Env) (payload : WebhookPayload) (s : DbState) : DbState × Outcome :=
  if payload.typ = "Payment" then processPaymentEvent env payload s
  else if payload.typ = "SubscriptionCharge" then processSubscriptionChargeEvent env payload s
  else if payload.typ = "Refund" then processRefundEvent env payload s
  else (s, Outcome.fail ("unknown webhook type: " ++ payload.typ))

/-- Insert of a WebhookEvent row.  core.sql 201-211 declares
event_idempotency text UNIQUE (NULLs exempt, as in SQL); a violation makes
the insert fail, returning none. -/
def createWebhookEvent (s : DbState) (ev : WebhookEvent) : Option DbState :=
  match ev.eventIdempotency with
  | none => some { s with webhookEvents := s.webhookEvents ++ [ev], nextId := s.nextId + 1 }
  | some k =>
    if s.webhookEvents.any (fun e => e.eventIdempotency == some k) then none
    else some { s with webhookEvents := s.webhookEvents ++ [ev], nextId := s.nextId + 1 }

/-- ProcessWebhook (cloudpayments.go 174-225).  Signature gate (skipped
entirely when the configured secret is empty), JSON decode, duplicate
check on event_idempotency, settlement dispatch, and the event log write
recording processed_ok or processing_error.  A runtime panic below
unwinds before any event is logged. -/
def ProcessWebhook (env : Env) (raw : List Nat) (signature : String) (s : DbState) : DbState × Outcome :=
  if env.secret ≠ "" ∧ verifySignature env.secret raw signature = false then
    (s, Outcome.fail ("invalid signature"))
  else
    match env.decodeJson raw with
    | none => (s, Outcome.fail ("failed to parse webhook payload"))
    | some payload =>
      let ev : WebhookEvent :=
        { id := s.nextId, eventType := payload.typ,
          eventIdempotency := some payload.transactionId,
          signatureOk := (env.secret == "") || verifySignature env.secret raw signature,
          processedOk := false, processingError := none }
      if s.webhookEvents.any (fun e => e.eventIdempotency == some payload.transactionId) then
        match createWebhookEvent s { ev with processedOk := true } with
        | none => (s, Outcome.fail ("failed to create duplicate webhook event"))
        | some s2 => (s2, Outcome.ok)
      else
        match processWebhookEvent env payload s with
        | (s1, Outcome.crash p) => (s1, Outcome.crash p)
        | (s1, Outcome.fail msg) =>
          match createWebhookEvent s1 { ev with processingError := some msg } with
          | none => (s1, Outcome.fail ("failed to create webhook event"))
          | some s2 => (s2, Outcome.fail ("failed to process webhook: " ++ msg))
        | (s1, Outcome.ok) =>
          match createWebhookEvent s1 { ev with processedOk := true } with
          | none => (s1, Outcome.fail ("failed to create webhook event"))
          | some s2 => (s2, Outcome.ok)

/-! ## Achievement evaluator (pkg/achievements) -/

/-- AwardAchievement: a check-then-insert grant keyed by achievement code;
a missing catalog row is an error, re-granting is a no-op. -/
def awardAchievement (uid code : String) (reason : Option String) (s : DbState) : DbState × Outcome :=
  match s.achievements.find? (fun a => a.code == code) with
  | none => (s, Outcome.fail ("achievement not found"))
  | some a =>
    if s.userAchievements.any (fun ua => ua.authUserId == uid && ua.achievementId == a.id) then
      (s, Outcome.ok)
    else
      ({ s with userAchievements :=
           s.userAchievements ++ [{ authUserId := uid, achievementId := a.id, reason := reason }] },
       Outcome.ok)

/-- The loop body of CheckAndAwardTreeBasedAchievements: award each
qualifying achievement in turn, stopping at the first error. -/
def awardLoop (uid : String) : List Achievement → DbState → DbState × Outcome
  | [], s => (s, Outcome.ok)
  | a :: rest, s =>
    match awardAchievement uid a.code none s with
    | (s1, Outcome.ok) => awardLoop uid rest s1
    | (s1, out) => (s1, out)

/-- CheckAndAwardTreeBasedAchievements(authUserID, totalTrees): fetch every
achievement with a non-null threshold at most totalTrees and award each. -/
def checkAndAwardTreeBasedAchievements (uid : String) (totalTrees : Int) (s : DbState) : DbState × Outcome :=
  let qualifying := s.achievements.filter (fun a =>
    match a.thresholdTrees with
    | some t => decide (t ≤ totalTrees)
    | none => false)
  awardLoop uid qualifying s

/-! ## Concrete fixtures for witnesses and counterexamples -/

/-- Environment with the given configured secret, all externals concrete:
the clock reads 1000, time and uuid parsing fail (the code tolerates
both), and JSON decoding of any body yields the given payload. -/
def mkEnv (secret : String) (p : Option WebhookPayload) : Env :=
  { secret := secret, now := 1000,
    parseTime := fun _ => none, parseUUID := fun _ => none,
    decodeJson := fun _ => p }

def payPayment0 : WebhookPayload :=
  { typ := "Payment", transactionId := "tx1", amountMinor := 9500,
    currency := "RUB", status := "Succeeded", accountId := "u1",
    occurredAt := "", subscriptionId := none, reason := none }

def user0 : User :=
  { authUserId := "u1", totalTrees := 0, donationsCount := 0, lastDonationAt := none }

def payment0 : Payment :=
  { id := 1, providerPaymentId := some "tx1", authUserId := some "u1",
    subscriptionId := none, amountMinor := 9500, currency := "RUB",
    status := "pending", occurredAt := none, metaProjectId := none,
    metaWebhookProcessed := false, metaRefundReason := none }

def price0 : TreePrice := { currency := "RUB", priceMinor := 1900 }

def s0 : DbState :=
  { users := [user0], payments := [payment0], subscriptions := [],
    treePrices := [price0], donations := [], webhookEvents := [],
    achievements := [], userAchievements := [], nextId := 100 }

/-- Payment row in a currency that has no tree price configured. -/
def paymentC2 : Payment := { payment0 with currency := "USD" }

def sC2 : DbState := { s0 with payments := [paymentC2] }

/-- Orphaned payment: no owning user (payments.auth_user_id is nullable). -/
def paymentC7 : Payment := { payment0 with authUserId := none }

def sC7 : DbState := { s0 with payments := [paymentC7] }

def achFive : Achievement := { id := 50, code := "five_trees", thresholdTrees := some 5 }

def sC5 : DbState := { s0 with achievements := [achFive] }

/-! ## Claims -/

/-- C1: the exactly-once part of the claim holds: the first delivery
creates one Donation and one counter increment and later deliveries add
no Payment, Donation, or counter side effects and never reach settlement.
But the claimed duplicate audit logging does not happen: the code builds
the repeat-delivery WebhookEvent row with processed_ok=true and inserts
it, and the UNIQUE index on webhook_events.event_idempotency
(core.sql 205) rejects that insert, so ProcessWebhook returns the error
from Create and the repeat delivery leaves the event log unchanged. -/
theorem c1_duplicate_delivery_audit_rejected :
  (ProcessWebhook (mkEnv ("") (some payPayment0)) [1] ("sig") s0).2 = Outcome.ok ∧
  (ProcessWebhook (mkEnv ("") (some payPayment0)) [1] ("sig") s0).1.donations.length = 1 ∧
  ((ProcessWebhook (mkEnv ("") (some payPayment0)) [1] ("sig") s0).1.users.map
      (fun u => (u.totalTrees, u.donationsCount))) = [(5, 1)] ∧
  (ProcessWebhook (mkEnv ("") (some payPayment0)) [1] ("sig") s0).1.webhookEvents.length = 1 ∧
  (ProcessWebhook (mkEnv ("") (some payPayment0)) [1] ("sig")
      (ProcessWebhook (mkEnv ("") (some payPayment0)) [1] ("sig") s0).1) =
    ((ProcessWebhook (mkEnv ("") (some payPayment0)) [1] ("sig") s0).1,
     Outcome.fail ("failed to create duplicate webhook event")) := by
  decide

/-- C2: settlement of a succeeded Payment event whose currency has no
TreePrice row.  The tree-price lookup fails inside createDonation, yet the
Payment status update committed beforehand (cloudpayments.go 261) is NOT
rolled back: afterwards the Payment is visibly succeeded while no Donation
exists and no counter changed.  The status update and the donation
creation are two independent writes, not one atomic unit. -/
theorem c2_price_lookup_failure_leaves_status_committed :
  (ProcessWebhook (mkEnv ("") (some payPayment0)) [1] ("sig") sC2).2 =
    Outcome.fail ("failed to process webhook: tree price not found for currency USD") ∧
  ((ProcessWebhook (mkEnv ("") (some payPayment0)) [1] ("sig") sC2).1.payments.map
      (fun p => p.status)) = [PaymentStatusSucceeded] ∧
  (ProcessWebhook (mkEnv ("") (some payPayment0)) [1] ("sig") sC2).1.donations = [] ∧
  (ProcessWebhook (mkEnv ("") (some payPayment0)) [1] ("sig") sC2).1.users = sC2.users := by
  decide

/-- C5: a successful settlement that lifts the user total to 5 while the
catalog holds an achievement with threshold 5 the user does not hold.
The settlement completes but grants nothing: neither createDonation nor
ProcessWebhook ever invokes the achievement evaluator (no call to
CheckAndAwardTreeBasedAchievements exists in the pipeline), even though
running the evaluator on the new total would produce the grant. -/
theorem c5_settlement_never_invokes_achievement_evaluator :
  (ProcessWebhook (mkEnv ("") (some payPayment0)) [1] ("sig") sC5).2 = Outcome.ok ∧
  ((ProcessWebhook (mkEnv ("") (some payPayment0)) [1] ("sig") sC5).1.users.map
      (fun u => u.totalTrees)) = [5] ∧
  (ProcessWebhook (mkEnv ("") (some payPayment0)) [1] ("sig") sC5).1.userAchievements = [] ∧
  (checkAndAwardTreeBasedAchievements ("u1") 5
      (ProcessWebhook (mkEnv ("") (some payPayment0)) [1] ("sig") sC5).1).1.userAchievements =
    [{ authUserId := "u1", achievementId := 50, reason := none }] := by
  decide

/-- C7: settling a succeeded Payment event for an orphaned payment (nil
AuthUserID) with a configured tree price.  createDonation dereferences
payment.AuthUserID without a nil check (cloudpayments.go 355), a Go
runtime panic, not an explicit MissingOwner error; the panic unwinds out
of ProcessWebhook before any WebhookEvent is logged, with the committed
Payment status update left behind. -/
theorem c7_nil_owner_panics_instead_of_missing_owner_error :
  createDonation (mkEnv ("") (some payPayment0)) paymentC7 sC7 =
    (sC7, Outcome.crash GoPanic.nilDeref) ∧
  (ProcessWebhook (mkEnv ("") (some payPayment0)) [1] ("sig") sC7).2 =
    Outcome.crash GoPanic.nilDeref ∧
  (ProcessWebhook (mkEnv ("") (some payPayment0)) [1] ("sig") sC7).1.webhookEvents = [] ∧
  ((ProcessWebhook (mkEnv ("") (some payPayment0)) [1] ("sig") sC7).1.payments.map
      (fun p => p.status)) = [PaymentStatusSucceeded] := by
  decide

/-! ## Helper lemmas -/

lemma length_toBytesBE (n v : Nat) : (toBytesBE n v).length = n := by
  induction n generalizing v with
  | zero => rfl
  | succ n ih => simp [toBytesBE, ih]

lemma length_sha256 (msg : List Nat) : (sha256 msg).length = 32 := by
  simp [sha256, length_toBytesBE]

lemma length_bytesToHex (bs : List Nat) : (bytesToHex bs).length = 2 * bs.length := by
  induction bs with
  | nil => rfl
  | cons b rest ih =>
    simp [bytesToHex, byteToHexChars] at ih ⊢
    omega

lemma length_hexEncode (bs : List Nat) : (hexEncode bs).length = 2 * bs.length := by
  simp [hexEncode, String.length, length_bytesToHex]

lemma length_hmacSha256Hex (key : String) (msg : List Nat) :
    (hmacSha256Hex key msg).length = 64 := by
  simp [hmacSha256Hex, length_hexEncode, hmacSha256, length_sha256]

/-! ## C6, C9, C10 -/

/-- C6: with a non-empty configured secret, a signature differing from the
hex HMAC-SHA256 of the body under the secret is rejected; the correctly
computed signature is accepted; and with an empty configured secret the
whole gate in ProcessWebhook is bypassed: the outcome is the same
whatever signature is presented. -/
theorem c6_signature_gate :
    (∀ (secret : String) (payload : List Nat) (sig : String),
        secret ≠ "" → sig ≠ hmacSha256Hex secret payload →
        verifySignature secret payload sig = false) ∧
    (∀ (secret : String) (payload : List Nat) (sig : String),
        sig = hmacSha256Hex secret payload →
        verifySignature secret payload sig = true) ∧
    (∀ (env : Env) (raw : List Nat) (s : DbState) (sig1 sig2 : String),
        env.secret = "" →
        ProcessWebhook env raw sig1 s = ProcessWebhook env raw sig2 s) := by
  refine ⟨?_, ?_, ?_⟩
  · intro secret payload sig _ hne
    rw [verifySignature, beq_eq_false_iff_ne]
    exact hne
  · intro secret payload sig h
    rw [verifySignature, h, beq_self_eq_true]
  · intro env raw s sig1 sig2 hsec
    simp [ProcessWebhook, hsec]

/-- Witness for C6 at concrete inputs: secret "k" with body byte 97; the
empty string is a tampered signature because a correct one has 64 hex
characters; the genuine HMAC value verifies; and with an empty secret two
different signatures give identical results. -/
theorem c6_signature_gate_witness :
    verifySignature ("k") [97] ("") = false ∧
    verifySignature ("k") [97] (hmacSha256Hex ("k") [97]) = true ∧
    ProcessWebhook (mkEnv ("") (some payPayment0)) [1] ("a") s0 =
      ProcessWebhook (mkEnv ("") (some payPayment0)) [1] ("b") s0 := by
  have hne : ("" : String) ≠ hmacSha256Hex ("k") [97] := by
    intro h
    have hl := congrArg String.length h
    rw [length_hmacSha256Hex] at hl
    exact absurd hl (by decide)
  exact ⟨c6_signature_gate.1 ("k") [97] ("") (by decide) hne,
         c6_signature_gate.2.1 ("k") [97] _ rfl,
         c6_signature_gate.2.2 (mkEnv ("") (some payPayment0)) [1] s0 ("a") ("b") rfl⟩

/-- C9: a Refund event for an existing Payment (in particular a succeeded
one) sets exactly that Payment to refunded (with refund bookkeeping in
occurred_at and meta) and returns success; Donation rows and user rows
(total_trees, donations_count, last_donation_at) are untouched. -/
theorem c9_refund_is_payment_status_only (env : Env) (payload : WebhookPayload)
    (s : DbState) (p : Payment)
    (hfind : s.payments.find? (fun q => q.providerPaymentId == some payload.transactionId) = some p)
    (hst : p.status = PaymentStatusSucceeded) :
    processRefundEvent env payload s =
      ({ s with payments := s.payments.map (fun q =>
            if q.id == p.id then
              { p with status := PaymentStatusRefunded,
                       occurredAt := some ((env.parseTime payload.occurredAt).getD 0),
                       metaProjectId := none, metaWebhookProcessed := true,
                       metaRefundReason := some payload.reason }
            else q) },
       Outcome.ok) ∧
    (processRefundEvent env payload s).1.donations = s.donations ∧
    (processRefundEvent env payload s).1.users = s.users := by
  refine ⟨?_, ?_, ?_⟩ <;> simp [processRefundEvent, hfind]

/-- Payment already settled, awaiting a refund. -/
def paymentC9 : Payment := { payment0 with status := "succeeded" }

def sC9 : DbState := { s0 with payments := [paymentC9] }

def payRefund0 : WebhookPayload :=
  { typ := "Refund", transactionId := "tx1", amountMinor := 9500,
    currency := "RUB", status := "Completed", accountId := "u1",
    occurredAt := "", subscriptionId := none, reason := some ("customer request") }

/-- Witness for C9: the concrete refund of the settled payment tx1. -/
theorem c9_refund_is_payment_status_only_witness :
    (processRefundEvent (mkEnv ("") none) payRefund0 sC9).1.donations = sC9.donations ∧
    (processRefundEvent (mkEnv ("") none) payRefund0 sC9).1.users = sC9.users := by
  have h := c9_refund_is_payment_status_only (mkEnv ("") none) payRefund0 sC9 paymentC9
    (by decide) rfl
  exact ⟨h.2.1, h.2.2⟩

/-- C10: createDonation divides the payment amount by the looked-up price
with no zero check.  Whenever a TreePrice row with price_minor = 0 is
configured for the payment currency (core.sql 73-77 declares price_minor
bigint NOT NULL with no positivity constraint), the settlement is a Go
integer division by zero, a runtime panic; with a non-zero price no
division panic occurs. -/
theorem c10_zero_price_division_panic (env : Env) (payment : Payment) (s : DbState)
    (tp : TreePrice)
    (hfind : s.treePrices.find? (fun t => t.currency == payment.currency) = some tp) :
    (tp.priceMinor = 0 → createDonation env payment s = (s, Outcome.crash GoPanic.divByZero)) ∧
    (tp.priceMinor ≠ 0 → (createDonation env payment s).2 ≠ Outcome.crash GoPanic.divByZero) := by
  constructor
  · intro h0
    simp [createDonation, hfind, h0]
  · intro hne
    simp only [createDonation, hfind, if_neg hne]
    cases payment.authUserId with
    | none => simp
    | some uid =>
      by_cases hdup : (s.donations.any (fun d => d.paymentId == payment.id) ||
          !(s.users.any (fun u => u.authUserId == uid))) = true
      · simp [hdup]
      · simp [hdup]

/-- Tree price table carrying a zero price for RUB. -/
def sC10 : DbState := { s0 with treePrices := [{ currency := "RUB", priceMinor := 0 }] }

/-- Witness for C10: settling payment tx1 against the zero RUB price
panics with division by zero; against the real 1900 price it does not. -/
theorem c10_zero_price_division_panic_witness :
    createDonation (mkEnv ("") none) payment0 sC10 = (sC10, Outcome.crash GoPanic.divByZero) ∧
    (createDonation (mkEnv ("") none) payment0 s0).2 ≠ Outcome.crash GoPanic.divByZero := by
  exact ⟨(c10_zero_price_division_panic (mkEnv ("") none) payment0 sC10
            { currency := "RUB", priceMinor := 0 } (by decide)).1 rfl,
         (c10_zero_price_division_panic (mkEnv ("") none) payment0 s0 price0
            (by decide)).2 (by decide)⟩

/-! ## C4 -/

/-- Payment carrying a negative amount.  Nothing forbids this: the column
is bigint with no check (core.sql 166), intent handlers validate only
presence, and the subscription-charge path converts an unchecked float. -/
def paymentC4 : Payment := { payment0 with amountMinor := -100 }

def sC4 : DbState := { s0 with payments := [paymentC4] }

/-- C4 counterexample: settling a payment of amount -100 minor at price
1900 succeeds and records 0 trees (Go int64 division truncates toward
zero), but floor(-100/1900) = -1, so the trees count is not floor(A/P)
for every settlement with P > 0. -/
theorem c4_floor_counterexample :
    (ProcessWebhook (mkEnv ("") (some payPayment0)) [1] ("sig") sC4).2 = Outcome.ok ∧
    ((ProcessWebhook (mkEnv ("") (some payPayment0)) [1] ("sig") sC4).1.donations.map
        (fun d => d.treesCount)) = [0] ∧
    Int.fdiv (-100) 1900 = -1 ∧
    ¬ ((0 : Int) = Int.fdiv (-100) 1900) := by
  decide

/-- C4 (amended): for every settlement with payment amount A ≥ 0 and tree
price P > 0, every donation created by createDonation has trees count
floor(A/P); in particular A < P (hence also A = 0) yields 0 trees, and
the division itself never raises an error or panic.  (For A < 0 the code
computes the Go truncated quotient, which differs from floor.) -/
theorem c4_trees_floor_nonneg (env : Env) (payment : Payment) (s : DbState)
    (tp : TreePrice)
    (hfind : s.treePrices.find? (fun t => t.currency == payment.currency) = some tp)
    (hpos : 0 < tp.priceMinor) (hA : 0 ≤ payment.amountMinor) :
    (∀ d ∈ (createDonation env payment s).1.donations, d ∉ s.donations →
        d.treesCount = Int.fdiv payment.amountMinor tp.priceMinor ∧
        (payment.amountMinor < tp.priceMinor → d.treesCount = 0)) ∧
    (createDonation env payment s).2 ≠ Outcome.crash GoPanic.divByZero := by
  have hne0 : ¬ tp.priceMinor = 0 := by omega
  have htf : Int.tdiv payment.amountMinor tp.priceMinor =
      Int.fdiv payment.amountMinor tp.priceMinor := by
    rw [Int.tdiv_eq_ediv hA (le_of_lt hpos), Int.fdiv_eq_ediv _ (le_of_lt hpos)]
  constructor
  · intro d hd hnd
    simp only [createDonation, hfind, if_neg hne0] at hd
    split at hd
    · exact absurd hd hnd
    · split at hd
      · exact absurd hd hnd
      · simp only [List.mem_append, List.mem_singleton] at hd
        rcases hd with hd | rfl
        · exact absurd hd hnd
        · refine ⟨htf.symm ▸ rfl, ?_⟩
          intro hlt
          show Int.tdiv payment.amountMinor tp.priceMinor = 0
          rw [Int.tdiv_eq_ediv hA (le_of_lt hpos)]
          exact Int.ediv_eq_zero_of_lt hA hlt
  · simp only [createDonation, hfind, if_neg hne0]
    cases payment.authUserId with
    | none => simp
    | some uid =>
      by_cases hc : (s.donations.any (fun d => d.paymentId == payment.id) ||
          !(s.users.any (fun u => u.authUserId == uid))) = true
      · simp [hc]
      · simp [hc]

/-- The donation the 9500 RUB settlement creates. -/
def donationC4w : Donation :=
  { id := 100, authUserId := "u1", paymentId := 1, projectId := none, treesCount := 5 }

/-- Witness for the amended C4 at the spec scenario: amount 9500 minor,
price 1900 minor per tree, trees count floor(9500/1900) = 5. -/
theorem c4_trees_floor_nonneg_witness :
    donationC4w.treesCount = Int.fdiv payment0.amountMinor price0.priceMinor ∧
    Int.fdiv payment0.amountMinor price0.priceMinor = 5 := by
  refine ⟨((c4_trees_floor_nonneg (mkEnv ("") none) payment0 s0 price0
      (by decide) (by decide) (by decide)).1 donationC4w (by decide) (by decide)).1, by decide⟩

/-! ## C3: counter consistency -/

def donationsOf (ds : List Donation) (uid : String) : List Donation :=
  ds.filter (fun d => d.authUserId == uid)

def treesOf (ds : List Donation) (uid : String) : Int :=
  ((donationsOf ds uid).map (fun d => d.treesCount)).sum

def countOf (ds : List Donation) (uid : String) : Int :=
  ((donationsOf ds uid).length : Int)

/-- The reconciliation property of the user_stats view (core.sql 219-227):
each user row carries exactly the sum and count of its donation rows. -/
def counterInvariant (s : DbState) : Prop :=
  ∀ u ∈ s.users,
    u.totalTrees = treesOf s.donations u.authUserId ∧
    u.donationsCount = countOf s.donations u.authUserId

instance (s : DbState) : Decidable (counterInvariant s) :=
  inferInstanceAs (Decidable (∀ u ∈ s.users,
    u.totalTrees = treesOf s.donations u.authUserId ∧
    u.donationsCount = countOf s.donations u.authUserId))

lemma treesOf_append (ds : List Donation) (d : Donation) (uid : String) :
    treesOf (ds ++ [d]) uid =
      treesOf ds uid + (if d.authUserId == uid then d.treesCount else 0) := by
  simp only [treesOf, donationsOf, List.filter_append]
  cases h : (d.authUserId == uid) <;> simp [h]

lemma countOf_append (ds : List Donation) (d : Donation) (uid : String) :
    countOf (ds ++ [d]) uid =
      countOf ds uid + (if d.authUserId == uid then 1 else 0) := by
  simp only [countOf, donationsOf, List.filter_append, List.length_append]
  cases h : (d.authUserId == uid) <;> simp [h]

lemma inv_frame (s s' : DbState) (hu : s'.users = s.users)
    (hd : s'.donations = s.donations) (h : counterInvariant s) : counterInvariant s' := by
  intro u hu'
  rw [hd]
  exact h u (hu ▸ hu')

/-- The settlement transaction body: appending one donation for uid while
bumping exactly the matching user rows keeps counters reconciled. -/
lemma bump_inv (users : List User) (ds : List Donation) (uid : String)
    (t tnow : Int) (did pid : Nat) (pr : Option Nat)
    (h : ∀ u ∈ users, u.totalTrees = treesOf ds u.authUserId ∧
         u.donationsCount = countOf ds u.authUserId) :
    ∀ u ∈ users.map (fun u =>
        if u.authUserId == uid then
          { u with totalTrees := u.totalTrees + t, donationsCount := u.donationsCount + 1,
                   lastDonationAt := some tnow }
        else u),
      u.totalTrees = treesOf (ds ++
          [{ id := did, authUserId := uid, paymentId := pid, projectId := pr,
             treesCount := t }]) u.authUserId ∧
      u.donationsCount = countOf (ds ++
          [{ id := did, authUserId := uid, paymentId := pid, projectId := pr,
             treesCount := t }]) u.authUserId := by
  intro u' hu'
  rcases List.mem_map.mp hu' with ⟨u, hu, rfl⟩
  obtain ⟨h1, h2⟩ := h u hu
  by_cases hid : (u.authUserId == uid) = true
  · have hequid : u.authUserId = uid := by simpa using hid
    rw [if_pos hid]
    constructor
    · show u.totalTrees + t = treesOf _ u.authUserId
      rw [treesOf_append, h1, hequid]
      simp
    · show u.donationsCount + 1 = countOf _ u.authUserId
      rw [countOf_append, h2, hequid]
      simp
  · have hnequid : uid ≠ u.authUserId := by
      intro hcontra
      exact hid (by simp [hcontra])
    rw [if_neg hid]
    constructor
    · rw [treesOf_append, h1]
      simp [hnequid]
    · rw [countOf_append, h2]
      simp [hnequid]

lemma createDonation_preserves (env : Env) (payment : Payment) (s : DbState)
    (h : counterInvariant s) : counterInvariant (createDonation env payment s).1 := by
  simp only [createDonation]
  split
  · exact h
  · split
    · exact h
    · split
      · exact h
      · split
        · exact h
        · exact bump_inv s.users s.donations _ _ _ _ _ _ h

lemma processPaymentEvent_preserves (env : Env) (payload : WebhookPayload) (s : DbState)
    (h : counterInvariant s) : counterInvariant (processPaymentEvent env payload s).1 := by
  simp only [processPaymentEvent]
  split
  · exact h
  · split
    · exact h
    · exact createDonation_preserves _ _ _ (inv_frame _ _ rfl rfl h)

lemma processSubscriptionChargeEvent_preserves (env : Env) (payload : WebhookPayload)
    (s : DbState) (h : counterInvariant s) :
    counterInvariant (processSubscriptionChargeEvent env payload s).1 := by
  simp only [processSubscriptionChargeEvent]
  split
  · exact h
  · split
    · exact h
    · split
      · exact h
      · split
        · exact h
        · exact createDonation_preserves _ _ _ (inv_frame _ _ rfl rfl h)

lemma processRefundEvent_preserves (env : Env) (payload : WebhookPayload) (s : DbState)
    (h : counterInvariant s) : counterInvariant (processRefundEvent env payload s).1 := by
  simp only [processRefundEvent]
  split
  · exact h
  · exact inv_frame _ _ rfl rfl h

lemma processWebhookEvent_preserves (env : Env) (payload : WebhookPayload) (s : DbState)
    (h : counterInvariant s) : counterInvariant (processWebhookEvent env payload s).1 := by
  simp only [processWebhookEvent]
  split
  · exact processPaymentEvent_preserves _ _ _ h
  · split
    · exact processSubscriptionChargeEvent_preserves _ _ _ h
    · split
      · exact processRefundEvent_preserves _ _ _ h
      · exact h

lemma createWebhookEvent_frame (s : DbState) (ev : WebhookEvent) (s2 : DbState)
    (h : createWebhookEvent s ev = some s2) :
    s2.users = s.users ∧ s2.donations = s.donations ∧ s2.payments = s.payments := by
  unfold createWebhookEvent at h
  split at h
  · cases h
    exact ⟨rfl, rfl, rfl⟩
  · split at h
    · cases h
    · cases h
      exact ⟨rfl, rfl, rfl⟩

/-- C3: counter consistency.  For every webhook delivery, if each user row
carries exactly the sum of trees_count and the count of its Donation rows
beforehand, the same holds afterwards: every settlement path (payment,
subscription charge, refund, duplicate, failure, panic) preserves the
reconciliation property of the user_stats view. -/
theorem c3_counter_invariant_preserved (env : Env) (raw : List Nat) (signature : String)
    (s : DbState) (h : counterInvariant s) :
    counterInvariant (ProcessWebhook env raw signature s).1 := by
  simp only [ProcessWebhook]
  split
  · exact h
  · split
    · exact h
    next payload hdec =>
      split
      · split
        · exact h
        next s2 hs2 =>
          obtain ⟨hu, hd, _⟩ := createWebhookEvent_frame _ _ _ hs2
          exact inv_frame _ _ hu hd h
      · split
        next s1 p heq =>
          have h1 := processWebhookEvent_preserves env payload s h
          rw [heq] at h1
          exact h1
        next s1 msg heq =>
          have h1 := processWebhookEvent_preserves env payload s h
          rw [heq] at h1
          split
          · exact h1
          next s2 hs2 =>
            obtain ⟨hu, hd, _⟩ := createWebhookEvent_frame _ _ _ hs2
            exact inv_frame _ _ hu hd h1
        next s1 heq =>
          have h1 := processWebhookEvent_preserves env payload s h
          rw [heq] at h1
          split
          · exact h1
          next s2 hs2 =>
            obtain ⟨hu, hd, _⟩ := createWebhookEvent_frame _ _ _ hs2
            exact inv_frame _ _ hu hd h1

/-- Witness for C3: the reconciliation property holds of the concrete
initial store and still holds after the concrete settlement of tx1. -/
theorem c3_counter_invariant_preserved_witness :
    counterInvariant s0 ∧
    counterInvariant (ProcessWebhook (mkEnv ("") (some payPayment0)) [1] ("sig") s0).1 :=
  ⟨by decide,
   c3_counter_invariant_preserved (mkEnv ("") (some payPayment0)) [1] ("sig") s0 (by decide)⟩

/-! ## C8: webhook event logging -/

lemma empty_ne_hmac (key : String) (msg : List Nat) :
    ("" : String) ≠ hmacSha256Hex key msg := by
  intro h
  have hl := congrArg String.length h
  rw [length_hmacSha256Hex] at hl
  exact absurd hl (by decide)

lemma createDonation_events (env : Env) (payment : Payment) (s : DbState) :
    (createDonation env payment s).1.webhookEvents = s.webhookEvents := by
  simp only [createDonation]
  split
  · rfl
  · split
    · rfl
    · split
      · rfl
      · split
        · rfl
        · rfl

lemma processPaymentEvent_events (env : Env) (payload : WebhookPayload) (s : DbState) :
    (processPaymentEvent env payload s).1.webhookEvents = s.webhookEvents := by
  simp only [processPaymentEvent]
  split
  · rfl
  · split
    · rfl
    · exact createDonation_events _ _ _

lemma processSubscriptionChargeEvent_events (env : Env) (payload : WebhookPayload)
    (s : DbState) :
    (processSubscriptionChargeEvent env payload s).1.webhookEvents = s.webhookEvents := by
  simp only [processSubscriptionChargeEvent]
  split
  · rfl
  · split
    · rfl
    · split
      · rfl
      · split
        · rfl
        · exact createDonation_events _ _ _

lemma processRefundEvent_events (env : Env) (payload : WebhookPayload) (s : DbState) :
    (processRefundEvent env payload s).1.webhookEvents = s.webhookEvents := by
  simp only [processRefundEvent]
  split
  · rfl
  · rfl

lemma processWebhookEvent_events (env : Env) (payload : WebhookPayload) (s : DbState) :
    (processWebhookEvent env payload s).1.webhookEvents = s.webhookEvents := by
  simp only [processWebhookEvent]
  split
  · exact processPaymentEvent_events _ _ _
  · split
    · exact processSubscriptionChargeEvent_events _ _ _
    · split
      · exact processRefundEvent_events _ _ _
      · rfl

/-- C8 counterexample: with secret "k" configured, a delivery whose
signature (the empty string) does not match the HMAC of the body aborts
with the signature error before anything is logged: the store still has
zero WebhookEvent rows afterwards, refuting both "every inbound delivery
results in exactly one WebhookEvent row" and "a signature-verification
failure does not abort log recording". -/
theorem c8_counterexample :
    ProcessWebhook (mkEnv ("k") (some payPayment0)) [97] ("") s0 =
      (s0, Outcome.fail ("invalid signature")) ∧
    s0.webhookEvents = [] := by
  have hv : verifySignature ("k") [97] ("") = false := by
    rw [verifySignature, beq_eq_false_iff_ne]
    exact empty_ne_hmac _ _
  constructor
  · simp only [ProcessWebhook]
    rw [if_pos ⟨by decide, hv⟩]
  · rfl

/-- C8 (amended): a signature failure with a configured secret aborts the
call before any logging (error, no WebhookEvent row), and so does
malformed JSON; an unknown event type is an error of the dispatcher; and
a delivery that passes the gate and parses, with a fresh idempotency key,
appends exactly one WebhookEvent row — carrying processed_ok=true on
settlement success, and carrying the settlement error in processing_error
while ProcessWebhook itself still returns an error (not success, as the
original claim said) on settlement failure. -/
theorem c8_logging_behavior :
    (∀ (env : Env) (raw : List Nat) (sig : String) (s : DbState),
        env.secret ≠ "" → verifySignature env.secret raw sig = false →
        ProcessWebhook env raw sig s = (s, Outcome.fail ("invalid signature"))) ∧
    (∀ (env : Env) (raw : List Nat) (sig : String) (s : DbState),
        (env.secret = "" ∨ verifySignature env.secret raw sig = true) →
        env.decodeJson raw = none →
        ProcessWebhook env raw sig s = (s, Outcome.fail ("failed to parse webhook payload"))) ∧
    (∀ (env : Env) (payload : WebhookPayload) (s : DbState),
        payload.typ ≠ "Payment" → payload.typ ≠ "SubscriptionCharge" → payload.typ ≠ "Refund" →
        processWebhookEvent env payload s =
          (s, Outcome.fail ("unknown webhook type: " ++ payload.typ))) ∧
    (∀ (env : Env) (raw : List Nat) (sig : String) (s : DbState) (payload : WebhookPayload)
        (s1 : DbState) (msg : String),
        (env.secret = "" ∨ verifySignature env.secret raw sig = true) →
        env.decodeJson raw = some payload →
        (s.webhookEvents.any (fun e => e.eventIdempotency == some payload.transactionId)) = false →
        processWebhookEvent env payload s = (s1, Outcome.fail msg) →
        ∃ ev : WebhookEvent,
          (ProcessWebhook env raw sig s).1.webhookEvents = s.webhookEvents ++ [ev] ∧
          ev.eventType = payload.typ ∧
          ev.eventIdempotency = some payload.transactionId ∧
          ev.processedOk = false ∧ ev.processingError = some msg ∧
          (ProcessWebhook env raw sig s).2 =
            Outcome.fail ("failed to process webhook: " ++ msg)) ∧
    (∀ (env : Env) (raw : List Nat) (sig : String) (s : DbState) (payload : WebhookPayload)
        (s1 : DbState),
        (env.secret = "" ∨ verifySignature env.secret raw sig = true) →
        env.decodeJson raw = some payload →
        (s.webhookEvents.any (fun e => e.eventIdempotency == some payload.transactionId)) = false →
        processWebhookEvent env payload s = (s1, Outcome.ok) →
        ∃ ev : WebhookEvent,
          (ProcessWebhook env raw sig s).1.webhookEvents = s.webhookEvents ++ [ev] ∧
          ev.eventType = payload.typ ∧
          ev.eventIdempotency = some payload.transactionId ∧
          ev.processedOk = true ∧ ev.processingError = none ∧
          (ProcessWebhook env raw sig s).2 = Outcome.ok) := by
  have gateFalse : ∀ (env : Env) (raw : List Nat) (sig : String),
      (env.secret = "" ∨ verifySignature env.secret raw sig = true) →
      ¬(env.secret ≠ "" ∧ verifySignature env.secret raw sig = false) := by
    rintro env raw sig (h | h) ⟨h1, h2⟩
    · exact h1 h
    · rw [h] at h2
      cases h2
  refine ⟨?_, ?_, ?_, ?_, ?_⟩
  · intro env raw sig s hsec hv
    simp only [ProcessWebhook]
    rw [if_pos ⟨hsec, hv⟩]
  · intro env raw sig s hgate hdec
    simp only [ProcessWebhook, if_neg (gateFalse env raw sig hgate), hdec]
  · intro env payload s h1 h2 h3
    simp [processWebhookEvent, h1, h2, h3]
  · intro env raw sig s payload s1 msg hgate hdec hfresh hproc
    have hs1 : s1.webhookEvents = s.webhookEvents := by
      have he := processWebhookEvent_events env payload s
      rw [hproc] at he
      exact he
    refine ⟨{ id := s.nextId, eventType := payload.typ,
              eventIdempotency := some payload.transactionId,
              signatureOk := (env.secret == "") || verifySignature env.secret raw sig,
              processedOk := false, processingError := some msg }, ?_⟩
    simp only [ProcessWebhook, if_neg (gateFalse env raw sig hgate), hdec, hfresh, hproc,
      createWebhookEvent, hs1]
    simp
  · intro env raw sig s payload s1 hgate hdec hfresh hproc
    have hs1 : s1.webhookEvents = s.webhookEvents := by
      have he := processWebhookEvent_events env payload s
      rw [hproc] at he
      exact he
    refine ⟨{ id := s.nextId, eventType := payload.typ,
              eventIdempotency := some payload.transactionId,
              signatureOk := (env.secret == "") || verifySignature env.secret raw sig,
              processedOk := true, processingError := none }, ?_⟩
    simp only [ProcessWebhook, if_neg (gateFalse env raw sig hgate), hdec, hfresh, hproc,
      createWebhookEvent, hs1]
    simp

/-- Witness for the amended C8: concrete instantiations — the signature
failure aborts the concrete delivery with no row; a non-decoding body
aborts with the parse error; the unknown type "Bogus" errors; settlement
failure (no USD price) appends one row with the error recorded; and the
successful settlement of tx1 appends one processed_ok row. -/
theorem c8_logging_behavior_witness :
    ProcessWebhook (mkEnv ("k") (some payPayment0)) [97] ("x") s0 =
      (s0, Outcome.fail ("invalid signature")) ∧
    ProcessWebhook (mkEnv ("") none) [1] ("sig") s0 =
      (s0, Outcome.fail ("failed to parse webhook payload")) ∧
    processWebhookEvent (mkEnv ("") none) { payPayment0 with typ := "Bogus" } s0 =
      (s0, Outcome.fail ("unknown webhook type: Bogus")) ∧
    (∃ ev : WebhookEvent,
      (ProcessWebhook (mkEnv ("") (some payPayment0)) [1] ("sig") sC2).1.webhookEvents =
        sC2.webhookEvents ++ [ev] ∧
      ev.eventType = payPayment0.typ ∧
      ev.eventIdempotency = some payPayment0.transactionId ∧
      ev.processedOk = false ∧
      ev.processingError = some ("tree price not found for currency USD") ∧
      (ProcessWebhook (mkEnv ("") (some payPayment0)) [1] ("sig") sC2).2 =
        Outcome.fail ("failed to process webhook: tree price not found for currency USD")) ∧
    (∃ ev : WebhookEvent,
      (ProcessWebhook (mkEnv ("") (some payPayment0)) [1] ("sig") s0).1.webhookEvents =
        s0.webhookEvents ++ [ev] ∧
      ev.eventType = payPayment0.typ ∧
      ev.eventIdempotency = some payPayment0.transactionId ∧
      ev.processedOk = true ∧ ev.processingError = none ∧
      (ProcessWebhook (mkEnv ("") (some payPayment0)) [1] ("sig") s0).2 = Outcome.ok) := by
  have hv : verifySignature ("k") [97] ("x") = false := by
    rw [verifySignature, beq_eq_false_iff_ne]
    intro h
    have hl := congrArg String.length h
    rw [length_hmacSha256Hex] at hl
    exact absurd hl (by decide)
  exact ⟨c8_logging_behavior.1 (mkEnv ("k") (some payPayment0)) [97] ("x") s0 (by decide) hv,
         c8_logging_behavior.2.1 (mkEnv ("") none) [1] ("sig") s0 (Or.inl rfl) rfl,
         c8_logging_behavior.2.2.1 (mkEnv ("") none) _ s0 (by decide) (by decide) (by decide),
         c8_logging_behavior.2.2.2.1 (mkEnv ("") (some payPayment0)) [1] ("sig") sC2
           payPayment0 (processWebhookEvent (mkEnv ("") (some payPayment0)) payPayment0 sC2).1
           ("tree price not found for currency USD") (Or.inl rfl) rfl (by decide) (by decide),
         c8_logging_behavior.2.2.2.2 (mkEnv ("") (some payPayment0)) [1] ("sig") s0
           payPayment0 (processWebhookEvent (mkEnv ("") (some payPayment0)) payPayment0 s0).1
           (Or.inl rfl) rfl (by decide) (by decide)⟩

end Planet
